import Mathlib

/-!
Verification development for the Commonwealth Connect service-request
pipeline (extract.py, transform.py, train_model.py, app.py).

The Python pipeline is shallowly embedded: pandas DataFrames become lists
of records, missing values (NaT / NaN) become `Option`, SQLite tables
become fields of an explicit `Store` value, raised exceptions become
`Except` errors, and floating-point arithmetic is modelled over `ℚ`.
-/

namespace CC

/-- Model of a pandas Timestamp: a point in time together with the
calendar projections the pipeline reads via the `.dt` accessors. -/
structure Timestamp where
  year : Int
  month : Int
  day : Int
  weekday : String
  hour : Int
  minute : Int
  second : Int
  epochSeconds : Int
  deriving DecidableEq, Repr

/-- One raw service-request record as fetched from the Socrata CSV
endpoint (extract.py). Fields the pipeline never touches are elided;
missing cells are `none`. -/
structure RawRecord where
  issue_category : Option String
  issue_type : Option String
  ticket_status : Option String
  lat : Option ℚ
  lng : Option ℚ
  ticket_created_date_time : Option Timestamp
  ticket_closed_date_time : Option Timestamp
  ticket_last_updated_date_time : Option Timestamp
  deriving DecidableEq, Repr

/-- Page size used by extract.py. -/
def PAGE_SIZE : Nat := 50000

/-- Model of the remote Socrata source: the records visible at the start
of extraction, plus, for each offset, whether the page request at that
offset fails (transport error, authentication rejection). -/
structure SourceModel where
  recs : List RawRecord
  failAt : Nat → Bool

/-- Errors that abort an extraction run: a failed page request
(the exception propagating out of pd.read_csv) or the ValueError raised
by pd.concat on an empty chunk list. -/
inductive ExtractError where
  | pageRequestFailed
  | noObjectsToConcatenate
  deriving DecidableEq, Repr

/-- One page request: pd.read_csv on the paginated URL. On success it
returns the next up-to-PAGE_SIZE records at the given offset (zero
records once the source is exhausted). -/
def fetchPage (src : SourceModel) (offset : Nat) : Except ExtractError (List RawRecord) :=
  if src.failAt offset then Except.error ExtractError.pageRequestFailed
  else Except.ok ((src.recs.drop offset).take PAGE_SIZE)

/-- The while-loop of extract_all_csv: fetch pages at increasing offsets,
collecting the chunks, until a page comes back empty. A failed page
request propagates out of the loop. -/
def extractLoop (src : SourceModel) (offset : Nat) :
    Except ExtractError (List (List RawRecord)) :=
  if src.failAt offset then Except.error ExtractError.pageRequestFailed
  else
    if h : ((src.recs.drop offset).take PAGE_SIZE).isEmpty then Except.ok []
    else
      (extractLoop src (offset + PAGE_SIZE)).map
        (fun rest => (src.recs.drop offset).take PAGE_SIZE :: rest)
termination_by src.recs.length - offset
decreasing_by
  have hP : PAGE_SIZE = 50000 := rfl
  simp only [List.isEmpty_eq_true, List.take_eq_nil_iff] at h
  push_neg at h
  have hlen : ¬ src.recs.length ≤ offset := by
    intro hle
    exact h.2 (List.drop_eq_nil_of_le hle)
  omega

/-- extract_all_csv (extract.py lines 14-47): run the page loop, then
concatenate all chunks (pd.concat raises on an empty list of chunks). -/
def extract_all_csv (src : SourceModel) : Except ExtractError (List RawRecord) :=
  (extractLoop src 0).bind fun chunks =>
    if chunks.isEmpty then Except.error ExtractError.noObjectsToConcatenate
    else Except.ok chunks.flatten

/-- The derived calendar parts added for one datetime column
(transform.py lines 28-34): date, year, month, day, weekday name,
hour-of-day. A missing source timestamp (NaT) yields a missing value
(NaN / NaT) in every derived column. -/
structure DateParts where
  date : Option (Int × Int × Int)
  year : Option Int
  month : Option Int
  day : Option Int
  weekday : Option String
  hour : Option Int
  deriving DecidableEq, Repr

/-- The pandas `.dt` accessors applied to one datetime column: each
derived part is the projection of the timestamp when present, absent
otherwise. -/
def deriveParts (ts : Option Timestamp) : DateParts :=
  { date := ts.map fun t => (t.year, t.month, t.day)
    year := ts.map Timestamp.year
    month := ts.map Timestamp.month
    day := ts.map Timestamp.day
    weekday := ts.map Timestamp.weekday
    hour := ts.map Timestamp.hour }

/-- All six derived parts absent (the NaT row of the `.dt` accessors). -/
def noParts : DateParts :=
  { date := none, year := none, month := none, day := none,
    weekday := none, hour := none }

/-- strftime with format %Y-%m-%d %H:%M:%S (transform.py line 37). -/
def pad2 (n : Int) : String :=
  if n < 10 then "0" ++ toString n else toString n

/-- Render a timestamp as the created_str display string. -/
def timestampDisplay (t : Timestamp) : String :=
  toString t.year ++ "-" ++ pad2 t.month ++ "-" ++ pad2 t.day ++ " " ++
    pad2 t.hour ++ ":" ++ pad2 t.minute ++ ":" ++ pad2 t.second

/-- One row of the service_requests_transformed table: the raw columns
(SELECT * keeps them all) plus the derived columns added by
transform.py. -/
structure TransformedRow where
  raw : RawRecord
  created_parts : DateParts
  closed_parts : DateParts
  updated_parts : DateParts
  created_str : Option String
  time_to_close_hours : Option ℚ
  deriving DecidableEq, Repr

/-- Row-wise body of transform (transform.py lines 28-42): derived
calendar parts for each of the three datetime columns, the created_str
display string, and time_to_close_hours =
(ticket_closed_date_time - ticket_created_date_time).total_seconds()/3600,
which is NaN (absent) when either timestamp is NaT. -/
def transformRow (r : RawRecord) : TransformedRow :=
  { raw := r
    created_parts := deriveParts r.ticket_created_date_time
    closed_parts := deriveParts r.ticket_closed_date_time
    updated_parts := deriveParts r.ticket_last_updated_date_time
    created_str := r.ticket_created_date_time.map timestampDisplay
    time_to_close_hours :=
      match r.ticket_created_date_time, r.ticket_closed_date_time with
      | some a, some c =>
        some (((c.epochSeconds - a.epochSeconds : ℤ) : ℚ) / 3600)
      | _, _ => none }

/-- transform (transform.py): read the full raw table and compute the
derived columns for every row, preserving row order. -/
def transform (raws : List RawRecord) : List TransformedRow :=
  raws.map transformRow

/-- The SQLite database commonwealth_connect.db: the two tables the
pipeline writes (service_requests and service_requests_transformed). -/
structure Store where
  raw : List RawRecord
  transformed : List TransformedRow
  deriving DecidableEq, Repr

/-- A full run of extract_all_csv against the store: the replace of the
service_requests table (df.to_sql, if_exists=replace, line 51) happens
only after the fetch loop and the concatenation have completed; a raised
exception leaves the store untouched. -/
def runExtract (src : SourceModel) (store : Store) :
    Except ExtractError Unit × Store :=
  match extract_all_csv src with
  | Except.ok recs => (Except.ok (), { store with raw := recs })
  | Except.error e => (Except.error e, store)

/-- A full run of transform against the store: read service_requests,
compute the derived columns, replace service_requests_transformed. -/
def runTransform (store : Store) : Store :=
  { store with transformed := transform store.raw }

/-- Errors aborting a training run. insufficientData models the
ValueError train_test_split raises when the filtered table has zero
rows (train_model.py line 79 with n_samples = 0); persistenceFailed
models a failure of joblib.dump. -/
inductive TrainError where
  | insufficientData
  | persistenceFailed
  deriving DecidableEq, Repr

/-- The dropna filter of train_model.py line 33: keep a row exactly when
both ticket_closed_date_time and ticket_created_date_time are present. -/
def eligibleRow (r : TransformedRow) : Bool :=
  r.raw.ticket_closed_date_time.isSome && r.raw.ticket_created_date_time.isSome

/-- The rows the Trainer keeps for fitting and evaluation
(df after line 33). -/
def trainerRows (df : List TransformedRow) : List TransformedRow :=
  df.filter eligibleRow

/-- The target recomputation of train_model.py lines 40-42: the script
overwrites the time_to_close_hours column with
(ticket_closed_date_time - ticket_created_date_time).total_seconds()/3600
computed from the timestamp columns of the row it read. -/
def trainerRecomputedTarget (r : TransformedRow) : Option ℚ :=
  match r.raw.ticket_created_date_time, r.raw.ticket_closed_date_time with
  | some a, some c => some (((c.epochSeconds - a.epochSeconds : ℤ) : ℚ) / 3600)
  | _, _ => none

/-- The target vector y the Trainer fits and evaluates on
(train_model.py line 57, after the overwrite of lines 40-42). -/
def trainerTargets (df : List TransformedRow) : List ℚ :=
  (trainerRows df).filterMap trainerRecomputedTarget

/-- Modelled from the spec words, for comparison with trainerTargets:
the duration_hours column exactly as computed and stored by the
Transformer, restricted to the eligible rows. -/
def storedTargets (df : List TransformedRow) : List ℚ :=
  (trainerRows df).filterMap fun r => r.time_to_close_hours

/-- One row of the feature frame X (train_model.py lines 50-56):
issue_category, ticket_created_date_time_weekday,
ticket_created_date_time_month, ticket_created_date_time_hour. -/
def featureRow (r : TransformedRow) :
    Option String × Option String × Option Int × Option Int :=
  (r.raw.issue_category, r.created_parts.weekday,
   r.created_parts.month, r.created_parts.hour)

/-- OneHotEncoder.fit on one categorical column: collect the distinct
category values seen in the training data. -/
def fitCategories (xs : List (Option String)) : List String :=
  (xs.filterMap id).dedup

/-- The serialized pipeline (time_to_close_model.joblib): the fitted
category lists of the OneHotEncoder step and the fitted regressor,
a function from the encoded feature vector to the predicted hours. -/
structure ModelArtifact where
  catCategories : List String
  weekdayCategories : List String
  reg : List ℚ → ℚ

/-- train_model.py as one function of the transformed table. The fitting
procedure of RandomForestRegressor is a parameter (an external library
call); everything around it follows the script: dropna filter, target
recomputation, feature selection, and the train_test_split call that
raises when the filtered table is empty, before any fit or dump runs. -/
def trainModel
    (fitReg : List (Option String × Option String × Option Int × Option Int) →
      List ℚ → (List ℚ → ℚ))
    (df : List TransformedRow) : Except TrainError ModelArtifact :=
  let elig := trainerRows df
  let X := elig.map featureRow
  let y := trainerTargets df
  if elig.isEmpty then Except.error TrainError.insufficientData
  else Except.ok
    { catCategories := fitCategories (X.map fun p => p.1)
      weekdayCategories := fitCategories (X.map fun p => p.2.1)
      reg := fitReg X y }

/-- A full training run against the artifact file: joblib.dump
(line 87) runs only after fitting succeeded; on an aborted run the
previously persisted artifact is untouched. -/
def runTrain
    (fitReg : List (Option String × Option String × Option Int × Option Int) →
      List ℚ → (List ℚ → ℚ))
    (df : List TransformedRow) (prev : Option ModelArtifact) :
    Except TrainError Unit × Option ModelArtifact :=
  match trainModel fitReg df with
  | Except.ok art => (Except.ok (), some art)
  | Except.error e => (Except.error e, prev)

/-- The four-field serving input built in app.py lines 138-143. -/
structure FeatureVector where
  issue_category : String
  created_weekday : String
  created_month : Int
  created_hour : Int
  deriving DecidableEq, Repr

/-- Error raised by OneHotEncoder.transform on a category outside the
fitted list when handle_unknown is not set to ignore. -/
inductive EncodeError where
  | unknownCategory
  deriving DecidableEq, Repr

/-- OneHotEncoder.transform on one value of one categorical column:
with handle_unknown=ignore an unseen value encodes as the all-zero
vector instead of raising. -/
def oneHotColumn (handleUnknownIgnore : Bool) (cats : List String) (x : String) :
    Except EncodeError (List ℚ) :=
  if cats.contains x || handleUnknownIgnore then
    Except.ok (cats.map fun c => if x = c then (1 : ℚ) else 0)
  else Except.error EncodeError.unknownCategory

/-- The ColumnTransformer of train_model.py lines 65-67 applied to one
FeatureVector: one-hot blocks for the two categorical columns (with
handle_unknown=ignore, hence the literal true), then the two
passthrough numeric columns. -/
def encodeFeatures (art : ModelArtifact) (fv : FeatureVector) :
    Except EncodeError (List ℚ) :=
  match oneHotColumn true art.catCategories fv.issue_category,
        oneHotColumn true art.weekdayCategories fv.created_weekday with
  | Except.ok v1, Except.ok v2 =>
    Except.ok (v1 ++ v2 ++ [(fv.created_month : ℚ), (fv.created_hour : ℚ)])
  | Except.error e, _ => Except.error e
  | _, Except.error e => Except.error e

/-- model.predict on one row (app.py line 144): the preprocessor step
encodes the features, then the fitted regressor maps the encoded vector
to the predicted hours. -/
def pipelinePredict (art : ModelArtifact) (fv : FeatureVector) :
    Except EncodeError ℚ :=
  match encodeFeatures art fv with
  | Except.ok v => Except.ok (art.reg v)
  | Except.error e => Except.error e

/-! ## Lemmas about the extraction loop -/

/-- On a failure-free source the page loop succeeds and the collected
pages flatten to exactly the records from the starting offset on. -/
theorem extractLoop_ok_flatten (src : SourceModel)
    (hfail : ∀ k, src.failAt k = false) :
    ∀ n offset, src.recs.length - offset ≤ n →
      ∃ pages, extractLoop src offset = Except.ok pages ∧
        pages.flatten = src.recs.drop offset := by
  have hP : PAGE_SIZE = 50000 := rfl
  intro n
  induction n with
  | zero =>
    intro offset hle
    have hdrop : src.recs.drop offset = [] :=
      List.drop_eq_nil_of_le (by omega)
    refine ⟨[], ?_, by rw [hdrop, List.flatten_nil]⟩
    rw [extractLoop, if_neg (by rw [hfail offset]; exact Bool.false_ne_true),
      dif_pos (by rw [hdrop, List.take_nil, List.isEmpty_nil])]
  | succ n ih =>
    intro offset hle
    by_cases hempty : ((src.recs.drop offset).take PAGE_SIZE).isEmpty = true
    · have hdrop : src.recs.drop offset = [] := by
        rw [List.isEmpty_eq_true, List.take_eq_nil_iff] at hempty
        rcases hempty with h | h
        · exact absurd h (by omega)
        · exact h
      refine ⟨[], ?_, by rw [hdrop, List.flatten_nil]⟩
      rw [extractLoop, if_neg (by rw [hfail offset]; exact Bool.false_ne_true),
        dif_pos hempty]
    · have hoff : offset < src.recs.length := by
        by_contra hc
        exact hempty (by rw [List.drop_eq_nil_of_le (by omega : src.recs.length ≤ offset),
          List.take_nil, List.isEmpty_nil])
      obtain ⟨rest, hrest, hflat⟩ := ih (offset + PAGE_SIZE) (by omega)
      refine ⟨(src.recs.drop offset).take PAGE_SIZE :: rest, ?_, ?_⟩
      · rw [extractLoop, if_neg (by rw [hfail offset]; exact Bool.false_ne_true),
          dif_neg hempty, hrest]
        rfl
      · rw [List.flatten_cons, hflat, ← List.drop_drop, List.take_append_drop]

/-- The page loop can only fail with a failed page request. -/
theorem extractLoop_error_eq (src : SourceModel) :
    ∀ n offset, src.recs.length - offset ≤ n →
      ∀ e, extractLoop src offset = Except.error e →
        e = ExtractError.pageRequestFailed := by
  have hP : PAGE_SIZE = 50000 := rfl
  intro n
  induction n with
  | zero =>
    intro offset hle e he
    have hdrop : src.recs.drop offset = [] :=
      List.drop_eq_nil_of_le (by omega)
    rw [extractLoop] at he
    by_cases hb : src.failAt offset = true
    · rw [if_pos hb] at he
      exact (Except.error.inj he).symm
    · rw [if_neg hb,
        dif_pos (by rw [hdrop, List.take_nil, List.isEmpty_nil])] at he
      exact absurd he (by intro h; cases h)
  | succ n ih =>
    intro offset hle e he
    rw [extractLoop] at he
    by_cases hb : src.failAt offset = true
    · rw [if_pos hb] at he
      exact (Except.error.inj he).symm
    · rw [if_neg hb] at he
      by_cases hempty : ((src.recs.drop offset).take PAGE_SIZE).isEmpty = true
      · rw [dif_pos hempty] at he
        exact absurd he (by intro h; cases h)
      · have hoff : offset < src.recs.length := by
          by_contra hc
          exact hempty (by rw [List.drop_eq_nil_of_le (by omega : src.recs.length ≤ offset),
            List.take_nil, List.isEmpty_nil])
        rw [dif_neg hempty] at he
        rcases hrec : extractLoop src (offset + PAGE_SIZE) with e2 | rest
        · rw [hrec] at he
          have he2 : e2 = e := Except.error.inj he
          rw [he2] at hrec
          exact ih (offset + PAGE_SIZE) (by omega) e hrec
        · rw [hrec] at he
          exact absurd he (by intro h; cases h)

/-! ## Concrete fixtures for witnesses and counterexamples -/

/-- Creation instant of the sample ticket. -/
def tsA : Timestamp :=
  { year := 2025, month := 3, day := 14, weekday := "Friday",
    hour := 9, minute := 30, second := 0, epochSeconds := 1741944600 }

/-- Closure instant of the sample ticket, one hour later. -/
def tsB : Timestamp :=
  { year := 2025, month := 3, day := 14, weekday := "Friday",
    hour := 10, minute := 30, second := 0, epochSeconds := 1741948200 }

/-- A fully populated closed ticket. -/
def rec0 : RawRecord :=
  { issue_category := some "Pothole", issue_type := some "Pothole",
    ticket_status := some "Closed", lat := some 42, lng := some (-71),
    ticket_created_date_time := some tsA,
    ticket_closed_date_time := some tsB,
    ticket_last_updated_date_time := some tsB }

/-- A one-record source on which every page request succeeds. -/
def srcOne : SourceModel := { recs := [rec0], failAt := fun _ => false }

/-- An empty source on which every page request succeeds. -/
def srcEmpty : SourceModel := { recs := [], failAt := fun _ => false }

/-- A source on which every page request fails. -/
def srcFail : SourceModel := { recs := [rec0], failAt := fun _ => true }

/-- A store already holding one raw record from a previous run. -/
def storePrev : Store := { raw := [rec0], transformed := [] }

/-! ## C1: completeness of extraction -/

/-- C1 (amended): on a source whose page function returns, at each
offset, the next up-to-PAGE_SIZE records remaining (zero once
exhausted), never fails, and holds at least one record, extract_all_csv
terminates with the concatenation of all fetched pages in source order:
every record visible at the start, totalling the sum of the page row
counts, and that is what the run writes as the raw table. -/
theorem extract_complete (src : SourceModel) (store : Store)
    (hfail : ∀ k, src.failAt k = false) (hne : src.recs ≠ []) :
    ∃ pages, extractLoop src 0 = Except.ok pages ∧
      pages.flatten = src.recs ∧
      (pages.map List.length).sum = src.recs.length ∧
      extract_all_csv src = Except.ok src.recs ∧
      runExtract src store = (Except.ok (), { store with raw := src.recs }) := by
  obtain ⟨pages, hloop, hflat⟩ :=
    extractLoop_ok_flatten src hfail src.recs.length 0 (by omega)
  rw [List.drop_zero] at hflat
  have hpne : ¬ pages.isEmpty = true := by
    intro hemp
    rw [List.isEmpty_eq_true] at hemp
    rw [hemp, List.flatten_nil] at hflat
    exact hne hflat.symm
  have hext : extract_all_csv src = Except.ok src.recs := by
    unfold extract_all_csv
    rw [hloop]
    simp only [Except.bind]
    rw [if_neg hpne, hflat]
  refine ⟨pages, hloop, hflat, ?_, hext, ?_⟩
  · rw [← hflat, List.length_flatten]
  · unfold runExtract
    rw [hext]

/-- Witness for C1 at a concrete one-record source. -/
theorem extract_complete_witness :
    ∃ pages, extractLoop srcOne 0 = Except.ok pages ∧
      pages.flatten = srcOne.recs ∧
      (pages.map List.length).sum = srcOne.recs.length ∧
      extract_all_csv srcOne = Except.ok srcOne.recs ∧
      runExtract srcOne storePrev =
        (Except.ok (), { storePrev with raw := srcOne.recs }) :=
  extract_complete srcOne storePrev (fun _ => rfl) (by intro h; cases h)

/-- Counterexample to C1 as stated: on the empty source (every page
request succeeds and returns zero records) extract_all_csv does not
write the empty concatenation of zero pages; it fails in pd.concat and
the raw table keeps its previous contents. -/
theorem extract_complete_counterexample :
    extract_all_csv srcEmpty =
      Except.error ExtractError.noObjectsToConcatenate ∧
    runExtract srcEmpty storePrev =
      (Except.error ExtractError.noObjectsToConcatenate, storePrev) ∧
    storePrev.raw ≠ [] := by
  have hloop : extractLoop srcEmpty 0 = Except.ok [] := by
    rw [extractLoop, if_neg (by intro h; cases h),
      dif_pos (by rw [show srcEmpty.recs = [] from rfl, List.drop_nil,
        List.take_nil, List.isEmpty_nil])]
  have hext : extract_all_csv srcEmpty =
      Except.error ExtractError.noObjectsToConcatenate := by
    unfold extract_all_csv
    rw [hloop]
    simp only [Except.bind]
    rw [if_pos (by rw [List.isEmpty_nil])]
  refine ⟨hext, ?_, by intro h; cases h⟩
  unfold runExtract
  rw [hext]

/-! ## C2: atomicity of extraction on page failure -/

/-- C2: a run of the Extractor in which some page request fails aborts
with the propagated page-request failure, and the store after the
failed run is exactly the store before it: the replace of the raw table
happens only after the full fetch completes. -/
theorem extract_failure_atomic (src : SourceModel) (store : Store)
    (h : ∃ e, extractLoop src 0 = Except.error e) :
    runExtract src store =
      (Except.error ExtractError.pageRequestFailed, store) := by
  obtain ⟨e, he⟩ := h
  have heq := extractLoop_error_eq src src.recs.length 0 (by omega) e he
  rw [heq] at he
  unfold runExtract extract_all_csv
  rw [he]
  simp only [Except.bind]

/-- Witness for C2 at a concrete source whose page requests fail. -/
theorem extract_failure_atomic_witness :
    runExtract srcFail storePrev =
      (Except.error ExtractError.pageRequestFailed, storePrev) :=
  extract_failure_atomic srcFail storePrev
    ⟨ExtractError.pageRequestFailed,
      by rw [extractLoop, if_pos (show srcFail.failAt 0 = true from rfl)]⟩

/-! ## C9: empty source does not overwrite the raw table -/

/-- C9: when the very first page request succeeds but returns zero
records, extract_all_csv fails in pd.concat before reaching the write
step, and any existing raw table is left unchanged. -/
theorem extract_empty_source_fails (src : SourceModel) (store : Store)
    (hrecs : src.recs = []) (h0 : src.failAt 0 = false) :
    runExtract src store =
      (Except.error ExtractError.noObjectsToConcatenate, store) := by
  have hloop : extractLoop src 0 = Except.ok [] := by
    rw [extractLoop, if_neg (by rw [h0]; exact Bool.false_ne_true),
      dif_pos (by rw [hrecs, List.drop_nil, List.take_nil, List.isEmpty_nil])]
  have hext : extract_all_csv src =
      Except.error ExtractError.noObjectsToConcatenate := by
    unfold extract_all_csv
    rw [hloop]
    simp only [Except.bind]
    rw [if_pos (by rw [List.isEmpty_nil])]
  unfold runExtract
  rw [hext]

/-- Witness for C9 at the concrete empty source. -/
theorem extract_empty_source_fails_witness :
    runExtract srcEmpty { raw := [], transformed := [] } =
      (Except.error ExtractError.noObjectsToConcatenate,
        { raw := [], transformed := [] }) :=
  extract_empty_source_fails srcEmpty { raw := [], transformed := [] } rfl rfl

/-! ## C3: the Transformer is deterministic and idempotent -/

/-- C3: the Transformer is a pure function of the raw table. Re-running
it on an unchanged raw table is a no-op on the store, and its
transformed output depends on nothing but the raw table contents: two
stores with the same raw table get identical transformed output. -/
theorem transform_deterministic_idempotent (s : Store) :
    runTransform (runTransform s) = runTransform s ∧
    ∀ s2 : Store, s2.raw = s.raw →
      (runTransform s2).transformed = (runTransform s).transformed := by
  constructor
  · rfl
  · intro s2 h
    unfold runTransform
    rw [h]

/-- Witness for C3 at a concrete store. -/
theorem transform_deterministic_idempotent_witness :
    runTransform (runTransform storePrev) = runTransform storePrev ∧
    (runTransform { raw := [rec0], transformed := [] }).transformed =
      (runTransform storePrev).transformed :=
  ⟨(transform_deterministic_idempotent storePrev).1,
    (transform_deterministic_idempotent storePrev).2
      { raw := [rec0], transformed := [] } rfl⟩

/-! ## C4: missing source timestamps yield missing derived fields -/

/-- C4: for every raw row, a missing source timestamp makes all six of
its derived calendar parts missing; a missing creation timestamp also
makes created_str missing, and a missing closure timestamp makes
time_to_close_hours missing (never zero or any other placeholder),
whether or not the creation timestamp is present. -/
theorem transform_missing_timestamp_absent (r : RawRecord) :
    (r.ticket_created_date_time = none →
      (transformRow r).created_parts = noParts ∧
      (transformRow r).created_str = none) ∧
    (r.ticket_closed_date_time = none →
      (transformRow r).closed_parts = noParts ∧
      (transformRow r).time_to_close_hours = none) ∧
    (r.ticket_last_updated_date_time = none →
      (transformRow r).updated_parts = noParts) := by
  refine ⟨fun h => ⟨?_, ?_⟩, fun h => ⟨?_, ?_⟩, fun h => ?_⟩
  · show deriveParts r.ticket_created_date_time = noParts
    rw [h]
    rfl
  · show r.ticket_created_date_time.map timestampDisplay = none
    rw [h]
    rfl
  · show deriveParts r.ticket_closed_date_time = noParts
    rw [h]
    rfl
  · show (match r.ticket_created_date_time, r.ticket_closed_date_time with
      | some a, some c =>
        some (((c.epochSeconds - a.epochSeconds : ℤ) : ℚ) / 3600)
      | _, _ => none) = none
    rw [h]
    rcases r.ticket_created_date_time with _ | a
    · rfl
    · rfl
  · show deriveParts r.ticket_last_updated_date_time = noParts
    rw [h]
    rfl

/-- A ticket created but never closed and never updated. -/
def recOpen : RawRecord :=
  { issue_category := some "Graffiti", issue_type := some "Graffiti",
    ticket_status := some "Open", lat := some 42, lng := some (-71),
    ticket_created_date_time := some tsA,
    ticket_closed_date_time := none,
    ticket_last_updated_date_time := none }

/-- Witness for C4: an open ticket with a creation timestamp gets no
closed-derived parts and no duration, and no updated-derived parts. -/
theorem transform_missing_timestamp_absent_witness :
    ((transformRow recOpen).closed_parts = noParts ∧
      (transformRow recOpen).time_to_close_hours = none) ∧
    (transformRow recOpen).updated_parts = noParts :=
  ⟨(transform_missing_timestamp_absent recOpen).2.1 rfl,
    (transform_missing_timestamp_absent recOpen).2.2 rfl⟩

/-! ## C6: the Trainer uses exactly the rows with both timestamps -/

/-- C6: the rows the Trainer feeds into fitting and evaluation are
exactly the rows of the transformed table in which both the creation
and the closure timestamp are present: membership is preserved in both
directions (nothing imputed, nothing eligible dropped) and the kept
count equals the count of rows satisfying the predicate. -/
theorem trainer_eligible_rows (df : List TransformedRow) (r : TransformedRow) :
    (r ∈ trainerRows df ↔
      r ∈ df ∧ r.raw.ticket_created_date_time.isSome = true ∧
        r.raw.ticket_closed_date_time.isSome = true) ∧
    (trainerRows df).length = df.countP eligibleRow := by
  constructor
  · unfold trainerRows
    rw [List.mem_filter]
    unfold eligibleRow
    rw [Bool.and_eq_true]
    tauto
  · unfold trainerRows
    rw [List.countP_eq_length_filter]

/-- Witness for C6: a closed ticket is kept, an open one is excluded. -/
theorem trainer_eligible_rows_witness :
    transformRow rec0 ∈ trainerRows [transformRow rec0] ∧
    ¬ transformRow recOpen ∈ trainerRows [transformRow recOpen] :=
  ⟨(trainer_eligible_rows [transformRow rec0] (transformRow rec0)).1.mpr
      ⟨List.mem_singleton_self _, rfl, rfl⟩,
    fun hmem =>
      by cases ((trainer_eligible_rows [transformRow recOpen]
        (transformRow recOpen)).1.mp hmem).2.2⟩

/-! ## C5: the training target versus the stored duration column -/

/-- Like rec0, as stored by the Transformer, except that the stored
time_to_close_hours cell was replaced by 999 while the timestamps still
say one hour. -/
def tamperedRow : TransformedRow :=
  { raw := rec0
    created_parts := deriveParts (some tsA)
    closed_parts := deriveParts (some tsB)
    updated_parts := deriveParts (some tsB)
    created_str := some (timestampDisplay tsA)
    time_to_close_hours := some 999 }

/-- Counterexample to C5 as stated: the Trainer recomputes the target
from the timestamp columns (train_model.py lines 40-42) instead of
reading the stored duration_hours column, so on a transformed table
whose stored column disagrees with its timestamps the fitted target is
not the stored column. -/
theorem trainer_recomputes_target_counterexample :
    trainerTargets [tamperedRow] = [1] ∧
    storedTargets [tamperedRow] = [999] ∧
    trainerTargets [tamperedRow] ≠ storedTargets [tamperedRow] := by
  have ha : trainerTargets [tamperedRow] = [1] := by
    have h1 : trainerTargets [tamperedRow] =
        [((tsB.epochSeconds - tsA.epochSeconds : ℤ) : ℚ) / 3600] := rfl
    rw [h1]
    norm_num [tsA, tsB]
  have hb : storedTargets [tamperedRow] = [999] := rfl
  refine ⟨ha, hb, ?_⟩
  rw [ha, hb]
  intro hcontra
  rw [List.cons.injEq] at hcontra
  exact absurd hcontra.1 (by norm_num)

/-- C5 (amended): the Trainer recomputes time_to_close_hours from the
timestamp columns rather than reading the stored column; on any table
actually produced by the Transformer the recomputation coincides with
the stored duration_hours column restricted to the eligible rows, so
the fitted target values agree with the Transformer output even though
they are not read from it. -/
theorem trainer_target_single_source (raws : List RawRecord) :
    trainerTargets (transform raws) = storedTargets (transform raws) := by
  unfold trainerTargets storedTargets
  apply List.filterMap_congr
  intro x hx
  have hmem : x ∈ transform raws := List.mem_of_mem_filter hx
  unfold transform at hmem
  obtain ⟨r, _, rfl⟩ := List.mem_map.mp hmem
  show trainerRecomputedTarget (transformRow r) =
    (transformRow r).time_to_close_hours
  rfl

/-! ## C8: training on zero eligible rows fails before fitting -/

/-- C8: when zero rows of the transformed table have both timestamps
present, training fails with the insufficient-data error raised by
train_test_split before any model is fit, and the previously persisted
artifact is untouched (nothing is silently persisted). -/
theorem train_insufficient_data
    (fitReg : List (Option String × Option String × Option Int × Option Int) →
      List ℚ → (List ℚ → ℚ))
    (df : List TransformedRow) (prev : Option ModelArtifact)
    (h : trainerRows df = []) :
    trainModel fitReg df = Except.error TrainError.insufficientData ∧
    runTrain fitReg df prev =
      (Except.error TrainError.insufficientData, prev) := by
  have hm : trainModel fitReg df = Except.error TrainError.insufficientData := by
    unfold trainModel
    rw [h]
    simp
  refine ⟨hm, ?_⟩
  unfold runTrain
  rw [hm]

/-- Witness for C8: a table holding only an open ticket. -/
theorem train_insufficient_data_witness :
    trainModel (fun _ _ => fun _ => 0) [transformRow recOpen] =
      Except.error TrainError.insufficientData ∧
    runTrain (fun _ _ => fun _ => 0) [transformRow recOpen] none =
      (Except.error TrainError.insufficientData, none) :=
  train_insufficient_data (fun _ _ => fun _ => 0) [transformRow recOpen]
    none (by decide)

/-! ## C10: negative durations flow through unchecked -/

/-- C10: a row whose closure timestamp precedes its creation timestamp
gets a strictly negative time_to_close_hours from the Transformer,
still passes the dropna filter of the Trainer, and its negative value
is exactly what enters the fitted target vector: no stage validates
that closure is at or after creation. -/
theorem negative_duration_passes_filter (r : RawRecord) (a c : Timestamp)
    (ha : r.ticket_created_date_time = some a)
    (hc : r.ticket_closed_date_time = some c)
    (hlt : c.epochSeconds < a.epochSeconds) :
    ∃ q : ℚ, q < 0 ∧
      (transformRow r).time_to_close_hours = some q ∧
      eligibleRow (transformRow r) = true ∧
      trainerRows [transformRow r] = [transformRow r] ∧
      trainerTargets [transformRow r] = [q] := by
  refine ⟨((c.epochSeconds - a.epochSeconds : ℤ) : ℚ) / 3600, ?_, ?_, ?_, ?_, ?_⟩
  · apply div_neg_of_neg_of_pos
    · exact_mod_cast (by omega : (c.epochSeconds - a.epochSeconds : ℤ) < 0)
    · norm_num
  · show (match r.ticket_created_date_time, r.ticket_closed_date_time with
      | some a, some c =>
        some (((c.epochSeconds - a.epochSeconds : ℤ) : ℚ) / 3600)
      | _, _ => none) = some _
    rw [ha, hc]
  · show (r.ticket_closed_date_time.isSome &&
      r.ticket_created_date_time.isSome) = true
    rw [ha, hc]
    rfl
  · have hel : eligibleRow (transformRow r) = true := by
      show (r.ticket_closed_date_time.isSome &&
        r.ticket_created_date_time.isSome) = true
      rw [ha, hc]
      rfl
    unfold trainerRows
    rw [List.filter_cons, if_pos hel]
    rfl
  · have hel : eligibleRow (transformRow r) = true := by
      show (r.ticket_closed_date_time.isSome &&
        r.ticket_created_date_time.isSome) = true
      rw [ha, hc]
      rfl
    have hrec : trainerRecomputedTarget (transformRow r) =
        some (((c.epochSeconds - a.epochSeconds : ℤ) : ℚ) / 3600) := by
      show (match r.ticket_created_date_time, r.ticket_closed_date_time with
        | some a, some c =>
          some (((c.epochSeconds - a.epochSeconds : ℤ) : ℚ) / 3600)
        | _, _ => none) = some _
      rw [ha, hc]
    unfold trainerTargets trainerRows
    rw [List.filter_cons, if_pos hel]
    show List.filterMap trainerRecomputedTarget [transformRow r] = _
    rw [List.filterMap_cons, hrec]
    rfl

/-- A ticket recorded as closed one hour before it was created. -/
def recBackwards : RawRecord :=
  { issue_category := some "Pothole", issue_type := some "Pothole",
    ticket_status := some "Closed", lat := some 42, lng := some (-71),
    ticket_created_date_time := some tsB,
    ticket_closed_date_time := some tsA,
    ticket_last_updated_date_time := some tsA }

/-- Witness for C10 at the backwards ticket. -/
theorem negative_duration_passes_filter_witness :
    ∃ q : ℚ, q < 0 ∧
      (transformRow recBackwards).time_to_close_hours = some q ∧
      eligibleRow (transformRow recBackwards) = true ∧
      trainerRows [transformRow recBackwards] = [transformRow recBackwards] ∧
      trainerTargets [transformRow recBackwards] = [q] :=
  negative_duration_passes_filter recBackwards tsB tsA rfl rfl (by decide)

/-! ## C7: unseen categories at prediction time -/

/-- A category outside the fitted list one-hot encodes to the all-zero
indicator vector. -/
theorem oneHot_unseen_zero (x : String) :
    ∀ cats : List String, cats.contains x = false →
      (cats.map fun c => if x = c then (1 : ℚ) else 0) =
        List.replicate cats.length 0
  | [], _ => rfl
  | c :: cs, h => by
    rw [List.contains_cons, Bool.or_eq_false_iff] at h
    rw [List.map_cons, if_neg (by simpa using h.1), List.length_cons,
      List.replicate_succ, oneHot_unseen_zero x cs h.2]

/-- C7: with the OneHotEncoder fitted with handle_unknown=ignore, a
FeatureVector whose issue category or weekday was never seen during
training does not make prediction raise: the unseen value encodes as
the all-zero block (a neutral contribution) and model.predict returns a
numeric prediction. -/
theorem predict_unseen_category_ok (art : ModelArtifact) (fv : FeatureVector)
    (h : art.catCategories.contains fv.issue_category = false ∨
      art.weekdayCategories.contains fv.created_weekday = false) :
    (art.catCategories.contains fv.issue_category = false →
      oneHotColumn true art.catCategories fv.issue_category =
        Except.ok (List.replicate art.catCategories.length 0)) ∧
    (art.weekdayCategories.contains fv.created_weekday = false →
      oneHotColumn true art.weekdayCategories fv.created_weekday =
        Except.ok (List.replicate art.weekdayCategories.length 0)) ∧
    ∃ q : ℚ, pipelinePredict art fv = Except.ok q := by
  have hcol : ∀ (cats : List String) (x : String),
      oneHotColumn true cats x =
        Except.ok (cats.map fun c => if x = c then (1 : ℚ) else 0) := by
    intro cats x
    unfold oneHotColumn
    rw [if_pos (Bool.or_true _)]
  refine ⟨fun hc => ?_, fun hw => ?_, ?_⟩
  · rw [hcol, oneHot_unseen_zero fv.issue_category art.catCategories hc]
  · rw [hcol, oneHot_unseen_zero fv.created_weekday art.weekdayCategories hw]
  · refine ⟨art.reg ((art.catCategories.map fun c =>
      if fv.issue_category = c then (1 : ℚ) else 0) ++
      (art.weekdayCategories.map fun c =>
        if fv.created_weekday = c then (1 : ℚ) else 0) ++
      [(fv.created_month : ℚ), (fv.created_hour : ℚ)]), ?_⟩
    unfold pipelinePredict encodeFeatures
    rw [hcol, hcol]

/-- An artifact fitted on two issue categories and two weekday names,
with a concrete regressor. -/
def artSample : ModelArtifact :=
  { catCategories := ["Pothole", "Graffiti"]
    weekdayCategories := ["Monday", "Friday"]
    reg := fun v => v.foldl (fun acc q => acc + q) 0 }

/-- A serving request with an issue category never seen in training. -/
def fvUnseen : FeatureVector :=
  { issue_category := "Missed Recycling Pickup", created_weekday := "Friday",
    created_month := 3, created_hour := 9 }

/-- Witness for C7: the unseen issue category encodes to zeros and
predict still returns a value. -/
theorem predict_unseen_category_ok_witness :
    (oneHotColumn true artSample.catCategories fvUnseen.issue_category =
      Except.ok (List.replicate artSample.catCategories.length 0)) ∧
    ∃ q : ℚ, pipelinePredict artSample fvUnseen = Except.ok q :=
  ⟨(predict_unseen_category_ok artSample fvUnseen (Or.inl (by decide))).1
      (by decide),
    (predict_unseen_category_ok artSample fvUnseen (Or.inl (by decide))).2.2⟩

end CC
